import Mathlib

/-!
# Verification of the grading-dashboard analytics core

Shallow embedding, over `ℚ` (exact rational arithmetic standing for the
source's IEEE-754 doubles), of the core pipeline of the grading dashboard:

* `src/src/services/data_service.py` — `load_data`, `process_data`,
  `apply_filters` (the modular service layer used by `main.py`);
* `src/src/services/analytics_service.py` — `calculate_metrics`;
* `src/app.py` — the legacy monolith; its `calculate_metrics` additionally
  computes the `question_performance` per-question breakdown (lines 142–147),
  embedded here as `App.question_performance`;
* `src/src/config.py` — the three flagging thresholds.

NaN results of undefined statistics are modelled as `Option.none`; the failure
sentinel `None` returned by the loader is `Option.none` at the caller's
interface.  `pandas.DataFrame.round` / `numpy.round` round half to even, which
`roundHalfEven` reproduces exactly on rationals.
-/

/-- Round a rational to the nearest integer, ties to even — the rounding mode
of `numpy.round` / `pandas.DataFrame.round` used by `process_data`. -/
def roundHalfEven (q : ℚ) : ℤ :=
  let f := ⌊q⌋
  let frac := q - (f : ℚ)
  if frac < 1/2 then f
  else if 1/2 < frac then f + 1
  else if f % 2 = 0 then f else f + 1

/-- `x.round(2)`: round to two decimal places (ties to even). -/
def round2 (q : ℚ) : ℚ := (roundHalfEven (q * 100) : ℚ) / 100

/-- One input row after loading: the five required columns plus the two
optional columns (already defaulted by the loader when absent). -/
structure RawRecord where
  student_id : String
  question_id : String
  ta_score : ℚ
  llm_score : ℚ
  max_points : ℚ
  confidence : ℚ
  flags : Bool
deriving DecidableEq, Repr

/-- `src/src/config.py`: `CONFIDENCE_THRESHOLD = 0.6`. -/
def CONFIDENCE_THRESHOLD : ℚ := 6/10

/-- `src/src/config.py`: `PERCENT_ERROR_THRESHOLD = 25`. -/
def PERCENT_ERROR_THRESHOLD : ℚ := 25

/-- `src/src/config.py`: `ABS_ERROR_FACTOR = 0.3`. -/
def ABS_ERROR_FACTOR : ℚ := 3/10

/-- One row of the dataframe returned by `process_data`: the raw columns plus
the derived columns added in `data_service.py` lines 31–40. -/
structure DerivedRecord where
  student_id : String
  question_id : String
  ta_score : ℚ
  llm_score : ℚ
  max_points : ℚ
  confidence : ℚ
  flags : Bool
  error : ℚ
  abs_error : ℚ
  percent_error : ℚ
  normalized_ta : ℚ
  normalized_llm : ℚ
  auto_flag : Bool
deriving DecidableEq, Repr

/-- The per-row computation of `process_data`
(`src/src/services/data_service.py` lines 28–41): derived columns and the
auto-flag predicate. -/
def processRecord (r : RawRecord) : DerivedRecord :=
  let error := r.llm_score - r.ta_score
  let abs_error := |error|
  let percent_error := round2 (abs_error / r.max_points * 100)
  { student_id := r.student_id
    question_id := r.question_id
    ta_score := r.ta_score
    llm_score := r.llm_score
    max_points := r.max_points
    confidence := r.confidence
    flags := r.flags
    error := error
    abs_error := abs_error
    percent_error := percent_error
    normalized_ta := r.ta_score / r.max_points
    normalized_llm := r.llm_score / r.max_points
    auto_flag :=
      decide (r.confidence < CONFIDENCE_THRESHOLD) ||
      decide (percent_error > PERCENT_ERROR_THRESHOLD) ||
      decide (abs_error > r.max_points * ABS_ERROR_FACTOR) }

/-- `process_data`: column-wise (hence row-wise) application of the derived
computations to the whole dataframe, preserving cardinality and order. -/
def process_data (df : List RawRecord) : List DerivedRecord :=
  df.map processRecord

/-- The filter dictionary owned by the session layer
(`main.py` / `src/utils/session.py`). -/
structure FilterState where
  questions : List String
  students : List String
  confidence_range : ℚ × ℚ
  error_threshold : ℚ
deriving DecidableEq, Repr

/-- The default filter state installed by `ensure_state` in `main.py`:
`questions=[], students=[], confidence_range=(0.0, 1.0), error_threshold=100`. -/
def default_filters : FilterState :=
  { questions := []
    students := []
    confidence_range := (0, 1)
    error_threshold := 100 }

/-- `apply_filters` (`src/src/services/data_service.py` lines 43–53):
question and student membership filters are applied only when the
corresponding list is non-empty (Python truthiness of `filters.get(...)`);
the confidence-range and error-threshold filters are always applied. -/
def apply_filters (df : List DerivedRecord) (filters : FilterState) : List DerivedRecord :=
  let out := df
  let out := if filters.questions.isEmpty then out
    else out.filter (fun r => filters.questions.contains r.question_id)
  let out := if filters.students.isEmpty then out
    else out.filter (fun r => filters.students.contains r.student_id)
  let out := out.filter (fun r =>
    decide (filters.confidence_range.1 ≤ r.confidence) &&
    decide (r.confidence ≤ filters.confidence_range.2))
  out.filter (fun r => decide (r.percent_error ≤ filters.error_threshold))

theorem floor_le_roundHalfEven (q : ℚ) : ⌊q⌋ ≤ roundHalfEven q := by
  simp only [roundHalfEven]
  split_ifs <;> omega

theorem roundHalfEven_le_floor_add_one (q : ℚ) : roundHalfEven q ≤ ⌊q⌋ + 1 := by
  simp only [roundHalfEven]
  split_ifs <;> omega

/-- Away from ties, `roundHalfEven` agrees with nearest-integer rounding. -/
theorem roundHalfEven_eq_of_bounds (q : ℚ) (n : ℤ) (h1 : (n : ℚ) - 1/2 < q)
    (h2 : q < (n : ℚ) + 1/2) : roundHalfEven q = n := by
  simp only [roundHalfEven]
  rcases le_or_lt (n : ℚ) q with hq | hq
  · have hfl : ⌊q⌋ = n := Int.floor_eq_iff.mpr ⟨hq, by linarith⟩
    rw [hfl, if_pos (by linarith)]
  · have hfl : ⌊q⌋ = n - 1 := Int.floor_eq_iff.mpr ⟨by push_cast; linarith, by push_cast; linarith⟩
    rw [hfl, if_neg (by push_cast; linarith), if_pos (by push_cast; linarith)]
    omega

theorem roundHalfEven_mono {a b : ℚ} (h : a ≤ b) : roundHalfEven a ≤ roundHalfEven b := by
  have hf : ⌊a⌋ ≤ ⌊b⌋ := Int.floor_le_floor h
  rcases eq_or_lt_of_le hf with heq | hlt
  · have hfr : a - (⌊a⌋ : ℚ) ≤ b - (⌊a⌋ : ℚ) := by linarith
    simp only [roundHalfEven, ← heq]
    split_ifs <;> first | omega | (exfalso; linarith)
  · calc roundHalfEven a ≤ ⌊a⌋ + 1 := roundHalfEven_le_floor_add_one a
      _ ≤ ⌊b⌋ := by omega
      _ ≤ roundHalfEven b := floor_le_roundHalfEven b

theorem round2_eq_of_bounds (q : ℚ) (n : ℤ) (h1 : (n : ℚ) - 1/2 < q * 100)
    (h2 : q * 100 < (n : ℚ) + 1/2) : round2 q = (n : ℚ) / 100 := by
  rw [round2, roundHalfEven_eq_of_bounds (q * 100) n h1 h2]

theorem round2_mono {a b : ℚ} (h : a ≤ b) : round2 a ≤ round2 b := by
  have : roundHalfEven (a * 100) ≤ roundHalfEven (b * 100) :=
    roundHalfEven_mono (by linarith)
  have hcast : ((roundHalfEven (a * 100) : ℚ)) ≤ (roundHalfEven (b * 100) : ℚ) := by
    exact_mod_cast this
  rw [round2, round2]
  exact div_le_div_of_nonneg_right hcast (by norm_num) |>.trans_eq rfl

example :
    (processRecord
      { student_id := "S002", question_id := "Q1", ta_score := 8, llm_score := 5,
        max_points := 10, confidence := 1/2, flags := false }).percent_error = 30 := by
  have h : round2 (|(5 : ℚ) - 8| / 10 * 100) = (3000 : ℤ) / 100 :=
    round2_eq_of_bounds _ 3000 (by norm_num) (by norm_num)
  simp only [processRecord]
  norm_num at h ⊢
  rw [h]

example :
    (processRecord
      { student_id := "S001", question_id := "Q1", ta_score := 8, llm_score := 8,
        max_points := 10, confidence := 1, flags := false }).auto_flag = false := by
  have h : round2 (|(8 : ℚ) - 8| / 10 * 100) = ((0 : ℤ) : ℚ) / 100 :=
    round2_eq_of_bounds _ 0 (by norm_num) (by norm_num)
  simp only [processRecord, CONFIDENCE_THRESHOLD, PERCENT_ERROR_THRESHOLD, ABS_ERROR_FACTOR]
  norm_num at h ⊢
  rw [h]
  norm_num

/-! ## Aggregate statistics (`src/src/services/analytics_service.py`) -/

/-- `numpy.mean` of a column, as exact rational arithmetic.  (On the empty
column numpy yields NaN; no property below consults the mean of an empty
column, so the rational junk value `0/0 = 0` never matters.) -/
def listMean (l : List ℚ) : ℚ := l.sum / l.length

/-- `pandas.Series.max` of a column (junk value `0` on the empty column,
where pandas yields NaN; never consulted below). -/
def listMax : List ℚ → ℚ
  | [] => 0
  | h :: t => t.foldl max h

/-- `numpy.std(...)^2`: population variance, `mean((x - mean x)^2)`. -/
def popVariance (l : List ℚ) : ℚ := listMean (l.map (fun x => (x - listMean l) ^ 2))

/-- `pandas.Series.nunique`: the number of distinct values of a column. -/
def nunique {α : Type} [DecidableEq α] (l : List α) : ℕ := l.dedup.length

/-- The Pearson product-moment correlation coefficient of two columns, the
statistic computed by `scipy.stats.pearsonr` (an external collaborator of the
repository). -/
noncomputable def pearsonR (xs ys : List ℚ) : ℝ :=
  ((listMean (List.zipWith (· * ·) xs ys) - listMean xs * listMean ys : ℚ) : ℝ) /
    (Real.sqrt (popVariance xs) * Real.sqrt (popVariance ys))

/-- Fractional (average) rank of `x` within column `l`, as used by the
Spearman correlation: ties receive the mean of the ranks they occupy. -/
def fracRank (l : List ℚ) (x : ℚ) : ℚ :=
  (l.countP (fun y => decide (y < x)) : ℚ) + ((l.countP (fun y => decide (y = x)) : ℚ) + 1) / 2

/-- The Spearman rank-correlation coefficient of two columns, the statistic
computed by `scipy.stats.spearmanr`: Pearson correlation of the rank columns. -/
noncomputable def spearmanR (xs ys : List ℚ) : ℝ :=
  pearsonR (xs.map (fracRank xs)) (ys.map (fracRank ys))

/-- Modelled from the spec: the two-sided p-value that `scipy.stats.pearsonr`
returns alongside the coefficient.  Its numeric definition lives inside scipy,
outside this repository; the spec fixes only that it is the two-sided p-value
of the correlation test, and no property below consults its value, so it is
modelled as an unspecified real. -/
noncomputable def pearsonPValue (_xs _ys : List ℚ) : ℝ := Classical.arbitrary ℝ

/-- Modelled from the spec: the two-sided p-value that `scipy.stats.spearmanr`
returns alongside the coefficient; as for `pearsonPValue`, its numeric
definition is external to the repository and never consulted below. -/
noncomputable def spearmanPValue (_xs _ys : List ℚ) : ℝ := Classical.arbitrary ℝ

/-- The metrics dictionary built by
`src/src/services/analytics_service.py::calculate_metrics`.  The four
correlation entries are `Option`-valued: `none` models the `float('nan')`
assigned when the correlation is undefined. -/
structure Metrics where
  total_items : ℕ
  total_students : ℕ
  total_questions : ℕ
  mae : ℚ
  rmse : ℝ
  mape : ℚ
  max_error : ℚ
  pearson_r : Option ℝ
  pearson_p : Option ℝ
  spearman_r : Option ℝ
  spearman_p : Option ℝ
  mean_bias : ℚ
  std_error : ℝ
  flagged_count : ℕ
  flagged_percent : ℚ

/-- The guard of `analytics_service.py` line 20:
`len(df) >= 2 and df['ta_score'].nunique() > 1 and df['llm_score'].nunique() > 1`. -/
def corrDefined (df : List DerivedRecord) : Bool :=
  decide (2 ≤ df.length) &&
  decide (1 < nunique (df.map (·.ta_score))) &&
  decide (1 < nunique (df.map (·.llm_score)))

/-- `calculate_metrics` (`src/src/services/analytics_service.py` lines 6–35).
`df['auto_flag'].sum()` over booleans is the count of `True` entries;
`np.std` is the population standard deviation (`ddof = 0`). -/
noncomputable def calculate_metrics (df : List DerivedRecord) : Metrics :=
  let taS := df.map (·.ta_score)
  let llmS := df.map (·.llm_score)
  { total_items := df.length
    total_students := nunique (df.map (·.student_id))
    total_questions := nunique (df.map (·.question_id))
    mae := listMean (df.map (·.abs_error))
    rmse := Real.sqrt ((listMean (df.map (fun r => r.error ^ 2)) : ℚ))
    mape := listMean (df.map (fun r => |r.error / (r.ta_score + 1/10000000000)|)) * 100
    max_error := listMax (df.map (·.abs_error))
    pearson_r := if corrDefined df then some (pearsonR taS llmS) else none
    pearson_p := if corrDefined df then some (pearsonPValue taS llmS) else none
    spearman_r := if corrDefined df then some (spearmanR taS llmS) else none
    spearman_p := if corrDefined df then some (spearmanPValue taS llmS) else none
    mean_bias := listMean (df.map (·.error))
    std_error := Real.sqrt ((popVariance (df.map (·.error)) : ℚ))
    flagged_count := (df.filter (·.auto_flag)).length
    flagged_percent := ((df.filter (·.auto_flag)).length : ℚ) / (max df.length 1 : ℕ) * 100 }

namespace App

/-- The sorted list of distinct question ids, the group keys produced by
`df.groupby('question_id')` (pandas sorts group keys). -/
def questionKeys (df : List DerivedRecord) : List String :=
  List.insertionSort (· ≤ ·) (df.map (·.question_id)).dedup

/-- The rows of one `groupby('question_id')` group. -/
def questionGroup (df : List DerivedRecord) (q : String) : List DerivedRecord :=
  df.filter (fun r => r.question_id = q)

/-- The `question_performance` per-question breakdown of
`src/app.py::calculate_metrics` lines 142–147:
`df.groupby('question_id').agg({'abs_error': 'mean', 'confidence': 'mean',
'auto_flag': 'sum'})` — for each distinct question id, the mean absolute
error, the mean confidence, and the number of auto-flagged rows of the group. -/
def question_performance (df : List DerivedRecord) :
    List (String × ℚ × ℚ × ℕ) :=
  (questionKeys df).map (fun q =>
    let g := questionGroup df q
    (q, listMean (g.map (·.abs_error)), listMean (g.map (·.confidence)),
      (g.filter (·.auto_flag)).length))

end App

/-! ## The loader (`src/src/services/data_service.py::load_data`) -/

/-- One dataframe cell: string, numeric, or boolean. -/
inductive Cell where
  | str (s : String)
  | num (q : ℚ)
  | bool (b : Bool)
deriving DecidableEq, Repr

/-- A parsed dataframe as `pandas.read_csv` yields it: named columns and
row-major cells (each row listing one cell per column). -/
structure Frame where
  columns : List String
  rows : List (List Cell)
deriving DecidableEq, Repr

/-- A dataframe is well-formed when every row has one cell per column —
`pandas` guarantees this for every frame it constructs. -/
def Frame.WF (fr : Frame) : Prop :=
  ∀ row ∈ fr.rows, row.length = fr.columns.length

/-- The cell of a row under a column name: walk the column list and the row
in step, returning the cell aligned with the first matching name. -/
def getCell : List String → List Cell → String → Cell
  | [], _, _ => .str ""
  | _, [], _ => .str ""
  | c0 :: cs, x :: xs, c => if c0 = c then x else getCell cs xs c

/-- `df[c]`: the column of `fr` named `c`, row by row. -/
def Frame.col (fr : Frame) (c : String) : List Cell :=
  fr.rows.map (fun row => getCell fr.columns row c)

/-- `df[c] = v`: append a new column, broadcasting the scalar `v` to every
row (how `load_data` injects the `confidence` and `flags` defaults). -/
def Frame.addCol (fr : Frame) (c : String) (v : Cell) : Frame :=
  { columns := fr.columns ++ [c], rows := fr.rows.map (fun row => row ++ [v]) }

/-- `REQUIRED_COLS` (`data_service.py` line 7). -/
def REQUIRED_COLS : List String :=
  ["student_id", "question_id", "ta_score", "llm_score", "max_points"]

/-- What reaches `load_data` from `pd.read_csv(uploaded_file)`: either a
parsed frame or a raised exception (unreadable or unparseable input), which
the `except` clause of `load_data` intercepts. -/
inductive LoadInput where
  | parsed (df : Frame)
  | readError (msg : String)

/-- The three exit paths of `load_data`: success, the missing-required-columns
path (`st.error` naming the missing columns, then `return None` — the spec's
`SchemaError`), and the exception path (`st.error`, then `return None`). -/
inductive LoadResult where
  | ok (df : Frame)
  | schemaError (missing : List String)
  | loadError (msg : String)
deriving DecidableEq, Repr

/-- `load_data` (`src/src/services/data_service.py` lines 10–25). -/
def load_data : LoadInput → LoadResult
  | .readError msg => .loadError msg
  | .parsed df =>
    let missing := REQUIRED_COLS.filter (fun c => ¬ df.columns.contains c)
    if missing.isEmpty then
      let df1 := if df.columns.contains "confidence" then df
        else df.addCol "confidence" (.num 1)
      let df2 := if df1.columns.contains "flags" then df1
        else df1.addCol "flags" (.bool false)
      .ok df2
    else .schemaError missing

/-- The value of `load_data` at the caller's interface: both failure paths
return the sentinel `None`. -/
def loadOption (i : LoadInput) : Option Frame :=
  match load_data i with
  | .ok df => some df
  | .schemaError _ => none
  | .loadError _ => none

/-- The caller pattern of `main.py` lines 47–50 / `app.py` lines 184–188:
derivation (and anything after it) runs only under `if df is not None`. -/
def loadPipeline {α : Type} (i : LoadInput) (derive : Frame → α) : Option α :=
  (loadOption i).map derive

/-! ## A store-passing model of `apply_filters` for the frame property

`pandas` boolean-mask selection (`out[mask]`) and `df.copy()` always build a
new frame; `apply_filters` never writes through its argument.  To state this
as a frame property rather than a triviality of a pure embedding, the
dataframe heap is explicit: a store of frames addressed by index, where every
`pandas` step of the function body allocates. -/

/-- A heap of materialized dataframes, addressed by allocation index. -/
abbrev Store : Type := List (List DerivedRecord)

/-- Dereference a dataframe handle (junk `[]` for a dangling handle). -/
def Store.read (s : Store) (i : ℕ) : List DerivedRecord := s.getD i []

/-- Materialize a new frame, returning the extended store and its handle. -/
def Store.alloc (s : Store) (v : List DerivedRecord) : Store × ℕ :=
  (s ++ [v], s.length)

/-- One `pandas` step of the function body: materialize `g` of the frame
under handle `h` as a fresh frame, returning the new handle (both
`df.copy()`, with `g = id`, and every mask selection `out[...]` build a new
frame and never write through an existing one). -/
def Store.step (s : Store) (h : ℕ) (g : List DerivedRecord → List DerivedRecord) :
    Store × ℕ :=
  s.alloc (g (s.read h))

/-- `apply_filters`, store-passing: `out = df.copy()` allocates; each applied
mask selection `out = out[...]` allocates and rebinds the local handle; the
skipped branches (`questions`/`students` empty) leave the handle unchanged,
exactly as the Python control flow does. -/
def apply_filters_store (s : Store) (df : ℕ) (filters : FilterState) : Store × ℕ :=
  let p1 := Store.step s df id
  let p2 :=
    if filters.questions.isEmpty then p1
    else Store.step p1.1 p1.2
      (fun v => v.filter (fun r => filters.questions.contains r.question_id))
  let p3 :=
    if filters.students.isEmpty then p2
    else Store.step p2.1 p2.2
      (fun v => v.filter (fun r => filters.students.contains r.student_id))
  let p4 := Store.step p3.1 p3.2 (fun v => v.filter (fun r =>
    decide (filters.confidence_range.1 ≤ r.confidence) &&
    decide (r.confidence ≤ filters.confidence_range.2)))
  Store.step p4.1 p4.2 (fun v => v.filter (fun r =>
    decide (r.percent_error ≤ filters.error_threshold)))

/-! ## Sample records used by the concrete witnesses -/

/-- Example 1 of the spec: perfect agreement, full confidence. -/
def sampleRaw1 : RawRecord :=
  { student_id := "S001", question_id := "Q1", ta_score := 8, llm_score := 8,
    max_points := 10, confidence := 1, flags := false }

/-- Example 2 of the spec: three-point disagreement at low confidence. -/
def sampleRaw2 : RawRecord :=
  { student_id := "S002", question_id := "Q1", ta_score := 8, llm_score := 5,
    max_points := 10, confidence := 1/2, flags := false }

/-- Like `sampleRaw2` but with a four-point disagreement. -/
def sampleRaw3 : RawRecord :=
  { student_id := "S002", question_id := "Q1", ta_score := 8, llm_score := 4,
    max_points := 10, confidence := 1/2, flags := false }

/-- A record whose (unvalidated) confidence lies outside `[0, 1]`. -/
def badConfidenceRaw : RawRecord :=
  { student_id := "S003", question_id := "Q2", ta_score := 8, llm_score := 8,
    max_points := 10, confidence := 2, flags := false }

/-! ## C1 — derived fields and the auto-flag policy -/

/-- C1: for every input record collection, derivation computes, for each
record, `error = llm_score - ta_score`, `abs_error = |error|`,
`percent_error = abs_error / max_points * 100` rounded to 2 decimal places,
and `auto_flag = (confidence < 0.6) ∨ (percent_error > 25) ∨
(abs_error > max_points * 0.3)`, the three thresholds being the fixed
process-wide constants of `src/src/config.py`. -/
theorem derivation_computes_fields (l : List RawRecord) (r : RawRecord) (h : r ∈ l) :
    CONFIDENCE_THRESHOLD = 6/10 ∧ PERCENT_ERROR_THRESHOLD = 25 ∧
    ABS_ERROR_FACTOR = 3/10 ∧
    ∃ d ∈ process_data l,
      d.error = r.llm_score - r.ta_score ∧
      d.abs_error = |r.llm_score - r.ta_score| ∧
      d.percent_error = round2 (|r.llm_score - r.ta_score| / r.max_points * 100) ∧
      (d.auto_flag = true ↔
        (r.confidence < 6/10 ∨ d.percent_error > 25 ∨
          d.abs_error > r.max_points * (3/10))) := by
  refine ⟨rfl, rfl, rfl, processRecord r, List.mem_map_of_mem _ h, rfl, rfl, rfl, ?_⟩
  simp [processRecord, CONFIDENCE_THRESHOLD, PERCENT_ERROR_THRESHOLD, ABS_ERROR_FACTOR]
  tauto

/-- Witness for C1 at the spec's Example 2 record. -/
theorem derivation_computes_fields_witness :
    CONFIDENCE_THRESHOLD = 6/10 ∧ PERCENT_ERROR_THRESHOLD = 25 ∧
    ABS_ERROR_FACTOR = 3/10 ∧
    ∃ d ∈ process_data [sampleRaw2],
      d.error = sampleRaw2.llm_score - sampleRaw2.ta_score ∧
      d.abs_error = |sampleRaw2.llm_score - sampleRaw2.ta_score| ∧
      d.percent_error =
        round2 (|sampleRaw2.llm_score - sampleRaw2.ta_score| / sampleRaw2.max_points * 100) ∧
      (d.auto_flag = true ↔
        (sampleRaw2.confidence < 6/10 ∨ d.percent_error > 25 ∨
          d.abs_error > sampleRaw2.max_points * (3/10))) :=
  derivation_computes_fields [sampleRaw2] sampleRaw2 (by simp)

/-! ## C8 — monotonicity of the auto-flag in the absolute score difference -/

/-- C8: for two records agreeing on `ta_score`, `max_points` (positive) and
`confidence`, if the second record's absolute score difference is at least the
first's, a raised auto-flag on the first forces a raised auto-flag on the
second — the flag is monotone in `|llm_score - ta_score|`. -/
theorem auto_flag_monotone (r1 r2 : RawRecord)
    (_hta : r1.ta_score = r2.ta_score)
    (hmax : r1.max_points = r2.max_points)
    (hmaxpos : 0 < r1.max_points)
    (hconf : r1.confidence = r2.confidence)
    (habs : |r1.llm_score - r1.ta_score| ≤ |r2.llm_score - r2.ta_score|)
    (hflag : (processRecord r1).auto_flag = true) :
    (processRecord r2).auto_flag = true := by
  simp [processRecord, Bool.or_eq_true, decide_eq_true_eq] at hflag ⊢
  have hle : |r1.llm_score - r1.ta_score| / r1.max_points * 100 ≤
      |r2.llm_score - r2.ta_score| / r2.max_points * 100 := by
    rw [hmax] at *
    exact mul_le_mul_of_nonneg_right
      (div_le_div_of_nonneg_right habs (le_of_lt hmaxpos)) (by norm_num)
  rcases hflag with (h | h) | h
  · exact Or.inl (Or.inl (hconf ▸ h))
  · exact Or.inl (Or.inr (lt_of_lt_of_le h (round2_mono hle)))
  · refine Or.inr ?_
    rw [← hmax]
    exact lt_of_lt_of_le h habs

/-- Witness for C8: raising the disagreement from 3 to 4 points keeps the
flag raised. -/
theorem auto_flag_monotone_witness :
    (processRecord sampleRaw3).auto_flag = true :=
  auto_flag_monotone sampleRaw2 sampleRaw3 rfl rfl (by norm_num [sampleRaw2]) rfl
    (by norm_num [sampleRaw2, sampleRaw3])
    (by
      simp [processRecord, Bool.or_eq_true, decide_eq_true_eq]
      exact Or.inl (by norm_num [sampleRaw2, CONFIDENCE_THRESHOLD]))

/-! ## C4 — correlations degrade to NaN, never to an error -/

/-- C4: on a collection with fewer than 2 records, or a constant `ta_score`
column, or a constant `llm_score` column, `calculate_metrics` yields NaN
(modelled `none`) for all four correlation entries; the function is total, so
no error is raised. -/
theorem correlation_none_when_degenerate (df : List DerivedRecord)
    (h : df.length < 2 ∨ nunique (df.map (·.ta_score)) ≤ 1 ∨
      nunique (df.map (·.llm_score)) ≤ 1) :
    (calculate_metrics df).pearson_r = none ∧
    (calculate_metrics df).pearson_p = none ∧
    (calculate_metrics df).spearman_r = none ∧
    (calculate_metrics df).spearman_p = none := by
  have hc : corrDefined df = false := by
    rw [corrDefined]
    rcases h with h | h | h
    · have hd : decide (2 ≤ df.length) = false := decide_eq_false (by omega)
      simp [hd]
    · have hd : decide (1 < nunique (df.map (·.ta_score))) = false := decide_eq_false (by omega)
      simp [hd]
    · have hd : decide (1 < nunique (df.map (·.llm_score))) = false := decide_eq_false (by omega)
      simp [hd]
  simp [calculate_metrics, hc]

/-- Witness for C4 at the empty collection. -/
theorem correlation_none_when_degenerate_witness :
    (calculate_metrics ([] : List DerivedRecord)).pearson_r = none ∧
    (calculate_metrics ([] : List DerivedRecord)).pearson_p = none ∧
    (calculate_metrics ([] : List DerivedRecord)).spearman_r = none ∧
    (calculate_metrics ([] : List DerivedRecord)).spearman_p = none :=
  correlation_none_when_degenerate [] (Or.inl (by decide))

/-! ## C5 — the error metrics of a non-empty collection -/

/-- C5: on any non-empty derived collection (here: the derivation of any
non-empty raw collection), `calculate_metrics` returns `mae` = mean absolute
error, `rmse` = the square root of the mean squared error, `mape` = the mean
of `|error / (ta_score + 1e-10)|` times 100, `max_error` = the largest
absolute error, `mean_bias` = the mean signed error, and `std_error` = the
population standard deviation of the signed error. -/
theorem error_metrics_formulas (l : List RawRecord) (_h : l ≠ []) :
    (calculate_metrics (process_data l)).mae =
      listMean (l.map (fun r => |r.llm_score - r.ta_score|)) ∧
    (calculate_metrics (process_data l)).rmse =
      Real.sqrt ((listMean (l.map (fun r => (r.llm_score - r.ta_score) ^ 2)) : ℚ)) ∧
    (calculate_metrics (process_data l)).mape =
      listMean (l.map (fun r =>
        |(r.llm_score - r.ta_score) / (r.ta_score + 1/10000000000)|)) * 100 ∧
    (calculate_metrics (process_data l)).max_error =
      listMax (l.map (fun r => |r.llm_score - r.ta_score|)) ∧
    (calculate_metrics (process_data l)).mean_bias =
      listMean (l.map (fun r => r.llm_score - r.ta_score)) ∧
    (calculate_metrics (process_data l)).std_error =
      Real.sqrt ((popVariance (l.map (fun r => r.llm_score - r.ta_score)) : ℚ)) := by
  refine ⟨?_, ?_, ?_, ?_, ?_, ?_⟩ <;>
    · simp only [calculate_metrics, process_data, List.map_map]
      rfl

/-- Witness for C5 at the one-record collection of the spec's Example 1. -/
theorem error_metrics_formulas_witness :
    (calculate_metrics (process_data [sampleRaw1])).mae =
      listMean ([sampleRaw1].map (fun r => |r.llm_score - r.ta_score|)) ∧
    (calculate_metrics (process_data [sampleRaw1])).rmse =
      Real.sqrt ((listMean ([sampleRaw1].map (fun r => (r.llm_score - r.ta_score) ^ 2)) : ℚ)) ∧
    (calculate_metrics (process_data [sampleRaw1])).mape =
      listMean ([sampleRaw1].map (fun r =>
        |(r.llm_score - r.ta_score) / (r.ta_score + 1/10000000000)|)) * 100 ∧
    (calculate_metrics (process_data [sampleRaw1])).max_error =
      listMax ([sampleRaw1].map (fun r => |r.llm_score - r.ta_score|)) ∧
    (calculate_metrics (process_data [sampleRaw1])).mean_bias =
      listMean ([sampleRaw1].map (fun r => r.llm_score - r.ta_score)) ∧
    (calculate_metrics (process_data [sampleRaw1])).std_error =
      Real.sqrt ((popVariance ([sampleRaw1].map (fun r => r.llm_score - r.ta_score)) : ℚ)) :=
  error_metrics_formulas [sampleRaw1] (by simp)

/-! ## C6 — flag counting and the guarded flagged percentage -/

/-- C6: `flagged_count` is the number of auto-flagged records and
`flagged_percent` is `flagged_count / max(total_items, 1) * 100`; on the
empty collection the `max(..., 1)` guard makes `flagged_percent` exactly `0`
rather than NaN. -/
theorem flagged_metrics_formulas (df : List DerivedRecord) :
    (calculate_metrics df).flagged_count = (df.filter (·.auto_flag)).length ∧
    (calculate_metrics df).flagged_percent =
      ((calculate_metrics df).flagged_count : ℚ) /
        ((max (calculate_metrics df).total_items 1 : ℕ) : ℚ) * 100 ∧
    (calculate_metrics ([] : List DerivedRecord)).flagged_percent = 0 := by
  refine ⟨rfl, rfl, ?_⟩
  simp [calculate_metrics]

/-! ## C3 — the per-question breakdown of the metrics summary -/

/-- C3: the `question_performance` breakdown of `app.py::calculate_metrics`
has one entry per distinct `question_id`, and the entry of each question id
carries the mean `abs_error`, the mean `confidence`, and the number of
auto-flagged rows of that question's group. -/
theorem question_performance_breakdown (df : List DerivedRecord) (q : String)
    (h : q ∈ df.map (·.question_id)) :
    ((App.question_performance df).map Prod.fst).Perm ((df.map (·.question_id)).dedup) ∧
    (q, listMean ((df.filter (fun r => r.question_id = q)).map (·.abs_error)),
      listMean ((df.filter (fun r => r.question_id = q)).map (·.confidence)),
      ((df.filter (fun r => r.question_id = q)).filter (·.auto_flag)).length)
      ∈ App.question_performance df := by
  constructor
  · have h1 : (App.question_performance df).map Prod.fst = App.questionKeys df := by
      rw [App.question_performance, List.map_map]
      exact List.map_id' _
    rw [h1, App.questionKeys]
    exact List.perm_insertionSort _ _
  · have hq : q ∈ App.questionKeys df := by
      rw [App.questionKeys]
      exact ((List.perm_insertionSort _ _).mem_iff).mpr (List.mem_dedup.mpr h)
    exact List.mem_map_of_mem _ hq

/-- Witness for C3 on a one-record derived collection. -/
theorem question_performance_breakdown_witness :
    ((App.question_performance (process_data [sampleRaw1])).map Prod.fst).Perm
      (((process_data [sampleRaw1]).map (·.question_id)).dedup) ∧
    ("Q1",
      listMean (((process_data [sampleRaw1]).filter
        (fun r => r.question_id = "Q1")).map (·.abs_error)),
      listMean (((process_data [sampleRaw1]).filter
        (fun r => r.question_id = "Q1")).map (·.confidence)),
      (((process_data [sampleRaw1]).filter
        (fun r => r.question_id = "Q1")).filter (·.auto_flag)).length)
      ∈ App.question_performance (process_data [sampleRaw1]) :=
  question_performance_breakdown (process_data [sampleRaw1]) "Q1"
    (by simp [process_data, processRecord, sampleRaw1])

/-! ## C7 — the default filter state

The claim as frozen says the default filter returns exactly the records with
`percent_error ≤ 100`.  The default filter also applies the confidence-range
bounds `(0, 1)`, and `confidence` is an unvalidated input column, so a record
with confidence outside `[0, 1]` is dropped even though its `percent_error`
is within bounds: the claim fails on such a collection.  The amended
characterization adds the confidence-range conjunct. -/

/-- Counterexample for C7 as frozen: a derived collection whose single record
has `percent_error = 0 ≤ 100` but `confidence = 2`; the default filter
returns the empty collection, not the records with `percent_error ≤ 100`
(which are all of them). -/
theorem default_filter_drops_in_range_record :
    apply_filters (process_data [badConfidenceRaw]) default_filters = [] ∧
    (process_data [badConfidenceRaw]).filter
      (fun r => decide (r.percent_error ≤ 100)) = process_data [badConfidenceRaw] ∧
    process_data [badConfidenceRaw] ≠ [] := by
  have h : round2 (|(8 : ℚ) - 8| / 10 * 100) = ((0 : ℤ) : ℚ) / 100 :=
    round2_eq_of_bounds _ 0 (by norm_num) (by norm_num)
  norm_num at h
  refine ⟨?_, ?_, by simp [process_data]⟩
  · simp only [apply_filters, default_filters, process_data, List.map_cons, List.map_nil]
    norm_num [processRecord, badConfidenceRaw, List.filter]
  · simp only [process_data, List.map_cons, List.map_nil]
    norm_num [processRecord, badConfidenceRaw, List.filter, h]

/-- C7 (amended): the default filter state selects exactly the records whose
confidence lies within the default range `[0, 1]` and whose `percent_error`
is at most `100`; it is the identity on collections all of whose records
satisfy both bounds, and it omits every record with `percent_error > 100`,
so it is not a true identity. -/
theorem apply_filters_default_characterization (df : List DerivedRecord) :
    apply_filters df default_filters =
      df.filter (fun r => decide (r.percent_error ≤ 100) &&
        (decide (0 ≤ r.confidence) && decide (r.confidence ≤ 1))) ∧
    (∀ r, r ∈ apply_filters df default_filters ↔
      r ∈ df ∧ (0 ≤ r.confidence ∧ r.confidence ≤ 1 ∧ r.percent_error ≤ 100)) ∧
    ((∀ r ∈ df, 0 ≤ r.confidence ∧ r.confidence ≤ 1 ∧ r.percent_error ≤ 100) →
      apply_filters df default_filters = df) ∧
    (∀ r ∈ df, 100 < r.percent_error → r ∉ apply_filters df default_filters) := by
  have h1 : apply_filters df default_filters =
      df.filter (fun r => decide (r.percent_error ≤ 100) &&
        (decide (0 ≤ r.confidence) && decide (r.confidence ≤ 1))) := by
    simp [apply_filters, default_filters, List.filter_filter]
  refine ⟨h1, ?_, ?_, ?_⟩
  · intro r
    rw [h1]
    simp only [List.mem_filter, Bool.and_eq_true, decide_eq_true_eq]
    tauto
  · intro hall
    rw [h1]
    apply List.filter_eq_self.mpr
    intro a ha
    obtain ⟨h0, h1', h2⟩ := hall a ha
    simp only [Bool.and_eq_true, decide_eq_true_eq]
    exact ⟨h2, h0, h1'⟩
  · intro r hr hpe hmem
    rw [h1] at hmem
    simp only [List.mem_filter, Bool.and_eq_true, decide_eq_true_eq] at hmem
    linarith [hmem.2.1]

/-- Witness for C7 (amended): on a collection whose record is within all
default bounds, the default filter is the identity. -/
theorem apply_filters_default_characterization_witness :
    apply_filters (process_data [sampleRaw1]) default_filters =
      process_data [sampleRaw1] := by
  apply (apply_filters_default_characterization (process_data [sampleRaw1])).2.2.1
  intro r hr
  simp only [process_data, List.map_cons, List.map_nil, List.mem_singleton] at hr
  subst hr
  have h : round2 (|(8 : ℚ) - 8| / 10 * 100) = ((0 : ℤ) : ℚ) / 100 :=
    round2_eq_of_bounds _ 0 (by norm_num) (by norm_num)
  norm_num at h
  refine ⟨?_, ?_, ?_⟩ <;> norm_num [processRecord, sampleRaw1, h]

/-! ## Column-lookup lemmas for the loader -/

theorem getCell_append_new (cols : List String) (row : List Cell) (c : String) (v : Cell)
    (hlen : row.length = cols.length) (hc : c ∉ cols) :
    getCell (cols ++ [c]) (row ++ [v]) c = v := by
  induction cols generalizing row with
  | nil =>
    cases row with
    | nil => simp [getCell]
    | cons x xs => simp at hlen
  | cons c0 cs ih =>
    cases row with
    | nil => simp at hlen
    | cons x xs =>
      have hne : c0 ≠ c := by
        intro he
        exact hc (by simp [he])
      simp only [List.cons_append, getCell, if_neg hne]
      exact ih xs (by simpa using hlen) (fun h => hc (List.mem_cons_of_mem _ h))

theorem getCell_append_left (cols cols2 : List String) (row row2 : List Cell) (c : String)
    (hlen : row.length = cols.length) (hc : c ∈ cols) :
    getCell (cols ++ cols2) (row ++ row2) c = getCell cols row c := by
  induction cols generalizing row with
  | nil => simp at hc
  | cons c0 cs ih =>
    cases row with
    | nil => simp at hlen
    | cons x xs =>
      by_cases he : c0 = c
      · simp [getCell, he]
      · simp only [List.cons_append, getCell, if_neg he]
        refine ih xs (by simpa using hlen) ?_
        rcases List.mem_cons.mp hc with h' | h'
        · exact absurd h'.symm he
        · exact h'

theorem Frame.col_addCol_new (fr : Frame) (c : String) (v : Cell) (hwf : fr.WF)
    (hc : c ∉ fr.columns) :
    (fr.addCol c v).col c = List.replicate fr.rows.length v := by
  apply List.eq_replicate_iff.mpr
  constructor
  · simp [Frame.addCol, Frame.col]
  · intro b hb
    simp only [Frame.addCol, Frame.col, List.map_map, List.mem_map, Function.comp] at hb
    obtain ⟨row, hrow, rfl⟩ := hb
    exact getCell_append_new fr.columns row c v (hwf row hrow) hc

theorem Frame.col_addCol_old (fr : Frame) (c' : String) (w : Cell) (c : String) (hwf : fr.WF)
    (hc : c ∈ fr.columns) :
    (fr.addCol c' w).col c = fr.col c := by
  simp only [Frame.addCol, Frame.col, List.map_map]
  apply List.map_congr_left
  intro row hrow
  exact getCell_append_left fr.columns [c'] row [w] c (hwf row hrow) hc

theorem Frame.WF_addCol (fr : Frame) (c : String) (v : Cell) (hwf : fr.WF) :
    (fr.addCol c v).WF := by
  intro row hrow
  simp only [Frame.addCol, List.mem_map] at hrow
  obtain ⟨row0, h0, rfl⟩ := hrow
  simp [Frame.addCol, hwf row0 h0]

/-! ## C2 — schema failure names the missing fields; defaults injected -/

/-- C2: when at least one required field is absent from the parsed input,
`load_data` takes the schema-failure path whose error names exactly the
missing required fields, and the caller's `if df is not None` guard keeps
derivation from running; when every required field is present, a missing
`confidence` or `flags` column is injected with default `1.0` resp. `False`
into every row of the returned frame. -/
theorem loader_schema_and_defaults (df : Frame) (hwf : df.WF) :
    (REQUIRED_COLS.filter (fun c => ¬ df.columns.contains c) ≠ [] →
      load_data (.parsed df) =
        .schemaError (REQUIRED_COLS.filter (fun c => ¬ df.columns.contains c)) ∧
      (∀ c, c ∈ REQUIRED_COLS.filter (fun c => ¬ df.columns.contains c) ↔
        (c ∈ REQUIRED_COLS ∧ c ∉ df.columns)) ∧
      (∀ (proc : Frame → List DerivedRecord), loadPipeline (.parsed df) proc = none)) ∧
    (REQUIRED_COLS.filter (fun c => ¬ df.columns.contains c) = [] →
      ∃ out, load_data (.parsed df) = .ok out ∧
        ("confidence" ∉ df.columns →
          out.col "confidence" = List.replicate df.rows.length (.num 1)) ∧
        ("flags" ∉ df.columns →
          out.col "flags" = List.replicate df.rows.length (.bool false))) := by
  constructor
  · intro hne
    have hload : load_data (.parsed df) =
        .schemaError (REQUIRED_COLS.filter (fun c => ¬ df.columns.contains c)) := by
      simp only [load_data]
      rw [if_neg (fun h => hne (List.isEmpty_iff.mp h))]
    refine ⟨hload, ?_, ?_⟩
    · intro c
      simp [List.mem_filter]
    · intro proc
      simp [loadPipeline, loadOption, hload]
  · intro hmiss
    simp only [load_data]
    rw [if_pos (List.isEmpty_iff.mpr hmiss)]
    by_cases hconf : df.columns.contains "confidence" = true
    · rw [if_pos hconf]
      by_cases hfl : df.columns.contains "flags" = true
      · rw [if_pos hfl]
        refine ⟨df, rfl, ?_, ?_⟩
        · intro habs
          exact absurd (by simpa using hconf) habs
        · intro habs
          exact absurd (by simpa using hfl) habs
      · rw [if_neg hfl]
        refine ⟨df.addCol "flags" (.bool false), rfl, ?_, ?_⟩
        · intro habs
          exact absurd (by simpa using hconf) habs
        · intro habs
          exact Frame.col_addCol_new df "flags" (.bool false) hwf habs
    · rw [if_neg hconf]
      have hconf' : "confidence" ∉ df.columns := by simpa using hconf
      have hwf1 : (df.addCol "confidence" (.num 1)).WF := Frame.WF_addCol _ _ _ hwf
      by_cases hfl : (df.addCol "confidence" (.num 1)).columns.contains "flags" = true
      · rw [if_pos hfl]
        refine ⟨_, rfl, ?_, ?_⟩
        · intro _
          exact Frame.col_addCol_new df "confidence" (.num 1) hwf hconf'
        · intro habs
          exfalso
          have hmem : "flags" ∈ df.columns ++ ["confidence"] := by
            simpa [Frame.addCol] using hfl
          rcases List.mem_append.mp hmem with h | h
          · exact habs h
          · simp at h
      · rw [if_neg hfl]
        refine ⟨_, rfl, ?_, ?_⟩
        · intro _
          rw [Frame.col_addCol_old _ "flags" (.bool false) "confidence" hwf1
            (by simp [Frame.addCol])]
          exact Frame.col_addCol_new df "confidence" (.num 1) hwf hconf'
        · intro _
          have hfl' : "flags" ∉ (df.addCol "confidence" (.num 1)).columns := by
            simpa using hfl
          have hcol := Frame.col_addCol_new _ "flags" (.bool false) hwf1 hfl'
          simpa [Frame.addCol] using hcol

/-- A parsed frame with all required columns and neither optional column. -/
def sampleFrame : Frame :=
  { columns := ["student_id", "question_id", "ta_score", "llm_score", "max_points"]
    rows := [[.str "S001", .str "Q1", .num 8, .num 8, .num 10]] }

/-- Witness for C2 at a concrete frame lacking both optional columns. -/
theorem loader_schema_and_defaults_witness :
    (REQUIRED_COLS.filter (fun c => ¬ sampleFrame.columns.contains c) ≠ [] →
      load_data (.parsed sampleFrame) =
        .schemaError (REQUIRED_COLS.filter (fun c => ¬ sampleFrame.columns.contains c)) ∧
      (∀ c, c ∈ REQUIRED_COLS.filter (fun c => ¬ sampleFrame.columns.contains c) ↔
        (c ∈ REQUIRED_COLS ∧ c ∉ sampleFrame.columns)) ∧
      (∀ (proc : Frame → List DerivedRecord),
        loadPipeline (.parsed sampleFrame) proc = none)) ∧
    (REQUIRED_COLS.filter (fun c => ¬ sampleFrame.columns.contains c) = [] →
      ∃ out, load_data (.parsed sampleFrame) = .ok out ∧
        ("confidence" ∉ sampleFrame.columns →
          out.col "confidence" = List.replicate sampleFrame.rows.length (.num 1)) ∧
        ("flags" ∉ sampleFrame.columns →
          out.col "flags" = List.replicate sampleFrame.rows.length (.bool false))) :=
  loader_schema_and_defaults sampleFrame
    (by
      intro row hrow
      simp only [sampleFrame, List.mem_singleton] at hrow
      subst hrow
      rfl)

/-! ## C10 — the loader is total at its public interface -/

/-- C10: for every input — unreadable or unparseable data included — the
loader either returns the sentinel `None` or a frame carrying every required
column together with the `confidence` and `flags` columns; the `except`
branch turns every raised read/parse error into the sentinel, so no
exception propagates to the caller. -/
theorem loader_total (i : LoadInput) :
    loadOption i = none ∨
    ∃ out, loadOption i = some out ∧
      (∀ c ∈ REQUIRED_COLS, c ∈ out.columns) ∧
      "confidence" ∈ out.columns ∧ "flags" ∈ out.columns := by
  cases i with
  | readError msg => exact Or.inl rfl
  | parsed df =>
    by_cases hm : (REQUIRED_COLS.filter (fun c => ¬ df.columns.contains c)).isEmpty = true
    · have hreq : ∀ c ∈ REQUIRED_COLS, c ∈ df.columns := by
        intro c hc
        by_contra hnc
        have hmem : c ∈ REQUIRED_COLS.filter (fun c => ¬ df.columns.contains c) := by
          simp [List.mem_filter, hc, hnc]
        rw [List.isEmpty_iff.mp hm] at hmem
        exact absurd hmem (List.not_mem_nil c)
      right
      by_cases hconf : df.columns.contains "confidence" = true
      · by_cases hfl : df.columns.contains "flags" = true
        · have hload : load_data (.parsed df) = .ok df := by
            simp only [load_data]
            rw [if_pos hm, if_pos hconf, if_pos hfl]
          exact ⟨df, by simp [loadOption, hload], hreq,
            by simpa using hconf, by simpa using hfl⟩
        · have hload : load_data (.parsed df) = .ok (df.addCol "flags" (.bool false)) := by
            simp only [load_data]
            rw [if_pos hm, if_pos hconf, if_neg hfl]
          refine ⟨df.addCol "flags" (.bool false), by simp [loadOption, hload], ?_, ?_, ?_⟩
          · intro c hc
            simpa [Frame.addCol] using Or.inl (hreq c hc)
          · simp only [Frame.addCol, List.mem_append]
            exact Or.inl (by simpa using hconf)
          · simp [Frame.addCol]
      · by_cases hfl : (df.addCol "confidence" (.num 1)).columns.contains "flags" = true
        · have hload : load_data (.parsed df) = .ok (df.addCol "confidence" (.num 1)) := by
            simp only [load_data]
            rw [if_pos hm, if_neg hconf, if_pos hfl]
          refine ⟨df.addCol "confidence" (.num 1), by simp [loadOption, hload], ?_, ?_, ?_⟩
          · intro c hc
            simpa [Frame.addCol] using Or.inl (hreq c hc)
          · simp [Frame.addCol]
          · simpa [Frame.addCol] using hfl
        · have hload : load_data (.parsed df) =
              .ok ((df.addCol "confidence" (.num 1)).addCol "flags" (.bool false)) := by
            simp only [load_data]
            rw [if_pos hm, if_neg hconf, if_neg hfl]
          refine ⟨(df.addCol "confidence" (.num 1)).addCol "flags" (.bool false),
            by simp [loadOption, hload], ?_, ?_, ?_⟩
          · intro c hc
            simp only [Frame.addCol, List.mem_append]
            exact Or.inl (Or.inl (hreq c hc))
          · simp [Frame.addCol]
          · simp [Frame.addCol]
    · left
      have hload : load_data (.parsed df) =
          .schemaError (REQUIRED_COLS.filter (fun c => ¬ df.columns.contains c)) := by
        simp only [load_data]
        rw [if_neg hm]
      simp [loadOption, hload]

/-! ## C9 — filtering never mutates the underlying collection -/

theorem Store.read_alloc (s : Store) (v : List DerivedRecord) :
    (s.alloc v).1.read (s.alloc v).2 = v := by
  simp only [Store.alloc, Store.read]
  rw [List.getD_append_right _ _ _ _ (le_refl s.length)]
  simp

theorem Store.read_alloc_lt (s : Store) (v : List DerivedRecord) {j : ℕ}
    (hj : j < s.length) : (s.alloc v).1.read j = s.read j := by
  simp only [Store.alloc, Store.read]
  exact List.getD_append _ _ _ _ hj

theorem Store.step_read (s : Store) (h : ℕ) (g : List DerivedRecord → List DerivedRecord) :
    (Store.step s h g).1.read (Store.step s h g).2 = g (s.read h) :=
  Store.read_alloc _ _

theorem Store.step_read_lt (s : Store) (h : ℕ) (g : List DerivedRecord → List DerivedRecord)
    {j : ℕ} (hj : j < s.length) : (Store.step s h g).1.read j = s.read j :=
  Store.read_alloc_lt _ _ hj

theorem Store.step_length (s : Store) (h : ℕ) (g : List DerivedRecord → List DerivedRecord) :
    s.length ≤ (Store.step s h g).1.length := by
  simp [Store.step, Store.alloc]

theorem apply_filters_sublist (df : List DerivedRecord) (f : FilterState) :
    (apply_filters df f).Sublist df := by
  simp only [apply_filters]
  split_ifs <;>
    first
      | exact (List.filter_sublist _).trans (List.filter_sublist _)
      | exact (List.filter_sublist _).trans
          ((List.filter_sublist _).trans (List.filter_sublist _))
      | exact (List.filter_sublist _).trans ((List.filter_sublist _).trans
          ((List.filter_sublist _).trans (List.filter_sublist _)))

/-- C9: in the store-passing model of `apply_filters`, where every `pandas`
step materializes a fresh frame, running the filter leaves every
pre-existing frame — the input derived collection included — unchanged; the
handle it returns holds exactly `apply_filters` of the input, which is a
selection (a sublist) of the input's rows. -/
theorem apply_filters_no_mutation (s : Store) (df : ℕ) (f : FilterState)
    (_hdf : df < s.length) :
    (∀ j, j < s.length → (apply_filters_store s df f).1.read j = s.read j) ∧
    (apply_filters_store s df f).1.read (apply_filters_store s df f).2 =
      apply_filters (s.read df) f ∧
    (apply_filters (s.read df) f).Sublist (s.read df) := by
  refine ⟨?_, ?_, apply_filters_sublist _ _⟩ <;>
    simp only [apply_filters_store] <;>
    set p1 := Store.step s df id with hp1 <;>
    set q2 := Store.step p1.1 p1.2
      (fun v => v.filter (fun r => f.questions.contains r.question_id)) with hq2 <;>
    set p2 := if f.questions.isEmpty then p1 else q2 with hp2 <;>
    set q3 := Store.step p2.1 p2.2
      (fun v => v.filter (fun r => f.students.contains r.student_id)) with hq3 <;>
    set p3 := if f.students.isEmpty then p2 else q3 with hp3 <;>
    set p4 := Store.step p3.1 p3.2 (fun v => v.filter (fun r =>
      decide (f.confidence_range.1 ≤ r.confidence) &&
      decide (r.confidence ≤ f.confidence_range.2))) with hp4 <;>
    set p5 := Store.step p4.1 p4.2 (fun v => v.filter (fun r =>
      decide (r.percent_error ≤ f.error_threshold))) with hp5
  all_goals {
    have pres1 : ∀ j, j < s.length → p1.1.read j = s.read j :=
      fun j hj => Store.step_read_lt _ _ _ hj
    have len1 : s.length ≤ p1.1.length := Store.step_length _ _ _
    have val1 : p1.1.read p1.2 = s.read df := Store.step_read _ _ _
    have pres2 : ∀ j, j < s.length → p2.1.read j = s.read j := by
      rw [hp2]
      split_ifs
      · exact pres1
      · intro j hj
        rw [hq2, Store.step_read_lt _ _ _ (lt_of_lt_of_le hj len1)]
        exact pres1 j hj
    have len2 : s.length ≤ p2.1.length := by
      rw [hp2]
      split_ifs
      · exact len1
      · rw [hq2]
        exact len1.trans (Store.step_length _ _ _)
    have val2 : p2.1.read p2.2 =
        (if f.questions.isEmpty then s.read df
          else (s.read df).filter (fun r => f.questions.contains r.question_id)) := by
      rw [hp2]
      split_ifs
      · exact val1
      · rw [hq2, Store.step_read, val1]
    have pres3 : ∀ j, j < s.length → p3.1.read j = s.read j := by
      rw [hp3]
      split_ifs
      · exact pres2
      · intro j hj
        rw [hq3, Store.step_read_lt _ _ _ (lt_of_lt_of_le hj len2)]
        exact pres2 j hj
    have len3 : s.length ≤ p3.1.length := by
      rw [hp3]
      split_ifs
      · exact len2
      · rw [hq3]
        exact len2.trans (Store.step_length _ _ _)
    have val3 : p3.1.read p3.2 =
        (if f.students.isEmpty then
          (if f.questions.isEmpty then s.read df
            else (s.read df).filter (fun r => f.questions.contains r.question_id))
        else
          ((if f.questions.isEmpty then s.read df
            else (s.read df).filter (fun r => f.questions.contains r.question_id)).filter
              (fun r => f.students.contains r.student_id))) := by
      rw [hp3]
      split_ifs <;>
        first
          | rw [val2, if_pos (by assumption)]
          | rw [val2, if_neg (by assumption)]
          | rw [hq3, Store.step_read, val2, if_pos (by assumption)]
          | rw [hq3, Store.step_read, val2, if_neg (by assumption)]
    have pres4 : ∀ j, j < s.length → p4.1.read j = s.read j := by
      intro j hj
      rw [hp4, Store.step_read_lt _ _ _ (lt_of_lt_of_le hj len3)]
      exact pres3 j hj
    have len4 : s.length ≤ p4.1.length := by
      rw [hp4]
      exact len3.trans (Store.step_length _ _ _)
    have val4 := hp4 ▸ (Store.step_read p3.1 p3.2 _)
    rw [val3] at val4
    have pres5 : ∀ j, j < s.length → p5.1.read j = s.read j := by
      intro j hj
      rw [hp5, Store.step_read_lt _ _ _ (lt_of_lt_of_le hj len4)]
      exact pres4 j hj
    have val5 := hp5 ▸ (Store.step_read p4.1 p4.2 _)
    rw [val4] at val5
    first
      | exact pres5
      | (rw [val5]; rfl)
  }

/-- Witness for C9 on a one-frame store holding a one-record collection. -/
theorem apply_filters_no_mutation_witness :
    (∀ j, j < [process_data [sampleRaw1]].length →
      (apply_filters_store [process_data [sampleRaw1]] 0 default_filters).1.read j =
        Store.read [process_data [sampleRaw1]] j) ∧
    (apply_filters_store [process_data [sampleRaw1]] 0 default_filters).1.read
        (apply_filters_store [process_data [sampleRaw1]] 0 default_filters).2 =
      apply_filters (Store.read [process_data [sampleRaw1]] 0) default_filters ∧
    (apply_filters (Store.read [process_data [sampleRaw1]] 0) default_filters).Sublist
      (Store.read [process_data [sampleRaw1]] 0) :=
  apply_filters_no_mutation [process_data [sampleRaw1]] 0 default_filters
    (by simp)
